import Mathlib

/-!
Verification development for the `whitelightning` text-classifier strategies
(`src/text_classifier/strategies/multiclass.py`).

The file shallowly embeds the three strategy classes — `PyTorchLSTMStrategy`,
`TensorFlowLSTMStrategy` and `ScikitLearnTFIDFStrategy` — as Lean structures
holding the instance attributes that the Python `__init__`/`train`/`predict`/
`save_model`/`load_model`/`export_to_onnx` methods read and write.  Python
exceptions are modelled by an error type `PyErr`, filesystem writes by an
effect list `Eff`, and the heavyweight library calls (the network weights,
the optimizer, the tokenizer's frequency ordering, the logistic-regression
decision function) are abstracted exactly where the source delegates to the
library, while everything the source itself decides (control flow, paths,
artifact shapes, label encoding, sequence padding) is translated faithfully.
-/

namespace WhiteLightning

/-- Python exception values raised by the strategies, distinguished by their
Python exception class and message. -/
inductive PyErr where
  | attributeError (msg : String)
  | runtimeError (msg : String)
  | valueError (msg : String)
  | fileNotFoundError (path : String)
  | keyError (msg : String)
  | typeError (msg : String)
deriving Repr, DecidableEq

/-- The untrained-model precondition errors: the three RuntimeError messages the
source raises when `_is_trained` is unset (multiclass.py lines 174, 201, 302,
327, 385, 390, 418). -/
def PyErr.isUntrainedModelError : PyErr → Bool
  | .runtimeError m =>
      m == "Cannot save untrained model" ||
      m == "Model must be trained before predicting" ||
      m == "Model must be trained before exporting to ONNX"
  | _ => false

/-- Dynamically typed Python scalar as it appears in a numpy prediction array:
either an integer class index or a string label. -/
inductive PyVal where
  | int (n : Nat)
  | str (s : String)
deriving Repr, DecidableEq

/-! ### Sorting and unique extraction (numpy.unique / sklearn LabelEncoder) -/

/-- Lexicographic less-or-equal on character lists, the order Python/numpy use
when sorting strings (by code point). -/
def leList : List Char → List Char → Bool
  | [], _ => true
  | _ :: _, [] => false
  | x :: xs, y :: ys => if x < y then true else if y < x then false else leList xs ys

/-- Lexicographic less-or-equal on Python strings. -/
def strLeb (a b : String) : Bool := leList a.data b.data

/-- Numeric less-or-equal as a Bool, for sorting integer class arrays. -/
def natLeb (a b : Nat) : Bool := decide (a ≤ b)

/-- Insert an element into a sorted list (insertion-sort step). -/
def insertSorted {α : Type} (le : α → α → Bool) (a : α) : List α → List α
  | [] => [a]
  | b :: bs => if le a b then a :: b :: bs else b :: insertSorted le a bs

/-- Insertion sort; models the sorting performed by `numpy.unique`. -/
def sortBy {α : Type} (le : α → α → Bool) (l : List α) : List α :=
  l.foldr (insertSorted le) []

/-- Distinct elements of a list (set of values; order irrelevant because the
result is subsequently sorted). -/
def uniqueList {α : Type} [DecidableEq α] : List α → List α
  | [] => []
  | a :: r =>
    let u := uniqueList r
    if a ∈ u then u else a :: u

/-- Sorted distinct values of a list: the semantics of `numpy.unique`, which is
what `sklearn.preprocessing.LabelEncoder.fit` stores in `classes_` and what
`LogisticRegression.fit` stores as its `classes_`. -/
def uniqueSorted {α : Type} [DecidableEq α] (le : α → α → Bool) (l : List α) : List α :=
  sortBy le (uniqueList l)

/-- Position of the first occurrence of `a` in `l` (length of `l` when absent);
models `numpy.searchsorted` on the sorted `classes_` array, i.e. the integer
code `LabelEncoder.transform` assigns to a label. -/
def listIdx {α : Type} [DecidableEq α] (a : α) : List α → Nat
  | [] => 0
  | b :: bs => if a = b then 0 else listIdx a bs + 1

/-- First-match association lookup, modelling Python dict access `d[k]`. -/
def lookupStr {β : Type} (k : String) : List (String × β) → Option β
  | [] => none
  | (k', v) :: r => if k = k' then some v else lookupStr k r

/-! ### Label encoder (sklearn.preprocessing.LabelEncoder) -/

/-- Result of `label_encoder.fit_transform(y)`: the sorted distinct label
strings stored in `classes_`, paired with each label replaced by its index in
that sorted array. -/
def labelFitTransform (y : List String) : List String × List Nat :=
  let classes := uniqueSorted strLeb y
  (classes, y.map (fun l => listIdx l classes))

/-- Integer code assigned to one label by the fitted encoder. -/
def labelEncode (classes : List String) (l : String) : Nat := listIdx l classes

/-- Result of `label_encoder.transform(y)` on an already-fitted encoder: raises
a ValueError on any label not present in `classes_` (spec section 7: unseen
test label is fatal). -/
def labelTransform (classes : List String) (y : List String) : Except PyErr (List Nat) :=
  y.mapM (fun l =>
    if l ∈ classes then Except.ok (listIdx l classes)
    else Except.error (PyErr.valueError "y contains previously unseen labels"))

/-! ### The persisted label map (scaler.json) -/

/-- Contents written to `scaler.json`: `{i: label for i, label in
enumerate(classes_)}` serialized by `json.dump`, which stringifies the integer
keys, producing a stringified-index to label mapping (multiclass.py lines
179-182, 307-310, 397-400). -/
def scalerEntries (classes : List String) : List (String × String) :=
  (classes.enum).map (fun p => (Nat.repr p.1, p.2))

/-- Decoding an integer class index through the persisted scaler.json contents;
this is the access `classes[str(i)]` performed by `load_model` (multiclass.py
lines 191-195). -/
def scalerDecode (entries : List (String × String)) (i : Nat) : Option String :=
  lookupStr (Nat.repr i) entries

/-- Reconstruction of the `classes_` array performed by `load_model`:
`[classes[str(i)] for i in range(len(classes))]`; `none` when some key is
missing (Python KeyError). -/
def scalerToClasses (entries : List (String × String)) : Option (List String) :=
  (List.range entries.length).mapM (fun i => lookupStr (Nat.repr i) entries)

/-! ### Tokenizer and sequence shaping (keras Tokenizer / pad_sequences) -/

/-- Whitespace splitting of a character list into words, accumulating the
current word in reverse; models the tokenizer's internal text splitting. -/
def splitWordsAux : List Char → List Char → List String
  | [], acc => [String.mk acc.reverse]
  | c :: r, acc =>
    if c = ' ' then String.mk acc.reverse :: splitWordsAux r []
    else splitWordsAux r (c :: acc)

/-- Split a text into its space-separated words. -/
def splitWords (s : String) : List String := splitWordsAux s.data []

/-- Word-index fitting performed by `tokenizer.fit_on_texts`: the library
assigns positive integer indices to the distinct words of the corpus (real
keras orders them by frequency; the ordering is library-internal and no claim
depends on it, so the words are indexed in sorted order here, starting at 1
because index 0 is reserved for padding). -/
def fitOnTexts (texts : List String) : List (String × Nat) :=
  ((uniqueSorted strLeb ((texts.map splitWords).flatten)).enum).map
    (fun p => (p.2, p.1 + 1))

/-- Conversion of one text into an integer sequence by
`tokenizer.texts_to_sequences`: each word is looked up in `word_index`
(library-internal details such as the OOV token do not affect any claim). -/
def textToSeq (wordIndex : List (String × Nat)) (t : String) : List Nat :=
  (splitWords t).filterMap (fun w => lookupStr w wordIndex)

/-- Semantics of `keras.preprocessing.sequence.pad_sequences` applied to one
sequence, as called with `maxlen=self.max_len, padding="post"` (multiclass.py
lines 106-115, 165, 256-265): `padding="post"` appends zeros on the right when
the sequence is shorter than `maxlen`; the `truncating` argument is left at
its library default `"pre"`, which drops leading entries — keeping the last
`maxlen` entries — when the sequence is longer than `maxlen`. -/
def padSequencesPost (maxlen : Nat) (s : List Nat) : List Nat :=
  let truncated := if maxlen < s.length then s.drop (s.length - maxlen) else s
  truncated ++ List.replicate (maxlen - truncated.length) 0

/-- Modelled from the spec wording of the claim under examination: a variant of
the padding step in which truncation is applied on the right (keeping the
first `maxlen` entries), for comparison with the source behaviour. -/
def padSequencesTruncRight (maxlen : Nat) (s : List Nat) : List Nat :=
  let truncated := if maxlen < s.length then s.take maxlen else s
  truncated ++ List.replicate (maxlen - truncated.length) 0

/-- Index of the first maximum of a list of scores: `numpy.argmax` /
`torch.argmax` along the class axis. -/
def argmaxIdx : List Int → Nat
  | [] => 0
  | x :: xs =>
    (xs.enum.foldl (fun (b : Nat × Int) p => if b.2 < p.2 then (p.1 + 1, p.2) else b) (0, x)).1

/-! ### Metrics (sklearn.metrics.accuracy_score) -/

/-- Fraction of positions where prediction equals truth. The classification
report string is library-produced and not modelled. -/
def accuracyScore (yTrue yPred : List Nat) : Rat :=
  if yTrue.length = 0 then 0
  else ((yTrue.zip yPred).countP (fun p => p.1 == p.2) : Rat) / (yTrue.length : Rat)

/-- Accuracy between integer-encoded truth and dynamically typed predictions. -/
def accuracyScorePy (yTrue : List Nat) (yPred : List (Option PyVal)) : Rat :=
  if yTrue.length = 0 then 0
  else ((yTrue.zip yPred).countP (fun p => p.2 == some (PyVal.int p.1)) : Rat) /
    (yTrue.length : Rat)

/-- Training result dictionary: train accuracy and test accuracy (the
classification report string is produced by the metrics library and is not
modelled). -/
structure Metrics where
  trainAccuracy : Rat
  testAccuracy : Rat
deriving Repr, DecidableEq

/-! ### Artifact paths -/

/-- Path of the serialized PyTorch weights written by `save_model`:
f-string `f"{self.output_path}/model.pt"` (line 176). -/
def ptSaveModelPath (outputPath : String) : String := outputPath ++ "/model.pt"

/-- Path of the keras model written by `save_model`: f-string
`f"{self.output_path}/model.h5"` (line 304). -/
def tfSaveModelPath (outputPath : String) : String := outputPath ++ "/model.h5"

/-- Path of the pickled pipeline written by `save_model`: f-string
`f"{self.output_path}/model.pkl"` (line 391). -/
def skSaveModelPath (outputPath : String) : String := outputPath ++ "/model.pkl"

/-- Path of the vocabulary artifact written by `save_model` in every strategy:
f-string `f"{self.output_path}/vocab.json"` (lines 177, 305, 395). -/
def saveVocabPath (outputPath : String) : String := outputPath ++ "/vocab.json"

/-- Path of the label-map artifact written by `save_model` in every strategy:
f-string `f"{self.output_path}/scaler.json"` (lines 179, 307, 397). -/
def saveScalerPath (outputPath : String) : String := outputPath ++ "/scaler.json"

/-- Path of the exported ONNX graph: f-string `f"{self.output_path}/model.onnx"`
(lines 199, 325, 416). -/
def saveOnnxPath (outputPath : String) : String := outputPath ++ "/model.onnx"

/-- Hardcoded path `load_model` reads the PyTorch weights from: f-string
`f"models/{filename_prefix}_model.pt"` (line 187). -/
def ptLoadModelPath (pfx : String) : String := "models/" ++ pfx ++ "_model.pt"

/-- Hardcoded path `load_model` reads the keras model from (line 314). -/
def tfLoadModelPath (pfx : String) : String := "models/" ++ pfx ++ "_model.h5"

/-- Hardcoded path `load_model` reads the pickled pipeline from (line 404). -/
def skLoadModelPath (pfx : String) : String := "models/" ++ pfx ++ "_model.pkl"

/-- Hardcoded path `load_model` reads the vocabulary from in every strategy:
f-string `f"models/{filename_prefix}_vocab.json"` (lines 189, 315, 405). -/
def loadVocabPath (pfx : String) : String := "models/" ++ pfx ++ "_vocab.json"

/-- Hardcoded path `load_model` reads the label map from in every strategy:
f-string `f"models/{filename_prefix}_scaler.json"` (lines 191, 317, 408). -/
def loadScalerPath (pfx : String) : String := "models/" ++ pfx ++ "_scaler.json"

/-! ### Export configuration (ONNX interface declared by each strategy) -/

/-- Interface data of an exported ONNX graph as declared at the export call
site: input/output tensor names, whether the batch dimension is dynamic, and
the opset version. -/
structure ExportConfig where
  inputNames : List String
  outputNames : List String
  batchDynamic : Bool
  opset : Nat
deriving Repr, DecidableEq

/-- ONNX interface declared by `PyTorchLSTMStrategy.export_to_onnx` (lines
204-212): `input_names=["input_ids"]`, `output_names=["output"]`,
`dynamic_axes` making dimension 0 a dynamic batch size, `opset_version=17`. -/
def ptOnnxCfg : ExportConfig :=
  { inputNames := ["input_ids"], outputNames := ["output"], batchDynamic := true, opset := 17 }

/-- ONNX interface declared by `ScikitLearnTFIDFStrategy.export_to_onnx` (lines
419-423): `initial_types=[("input", StringTensorType([None]))]` (dynamic batch
dimension) and `target_opset=17`; no output tensor names are declared at the
call site, so the converter's default output naming applies. -/
def skOnnxCfg : ExportConfig :=
  { inputNames := ["input"], outputNames := [], batchDynamic := true, opset := 17 }

/-! ### The PyTorch network (`_build_model`'s inner `TextClassifier`) -/

/-- Shallow embedding of the inner `nn.Module` built by
`PyTorchLSTMStrategy._build_model` (multiclass.py lines 67-91).  The layer
parameters are library objects, so each layer is an abstract function: the
embedding maps a token index to a feature vector of type `α`, the
bidirectional LSTM maps the embedded sequence to an output sequence of
per-time-step features (one output per input position, `batch_first=True`),
dropout and the dense head map features to features and finally to the class
scores of type `β`. -/
structure TextClassifier (α β : Type) where
  embedding : Nat → α
  lstm : List α → List α
  dropout : α → α
  fc1 : α → α
  relu : α → α
  fc2 : α → β

/-- Forward pass of the inner module, translated line by line from
multiclass.py lines 85-91: embed, run the LSTM, select index 0 of the time
dimension (`x = x[:, 0, :]`, which errors on an empty time dimension, hence the
`Option`), dropout, `relu(fc1 x)`, `fc2 x`. -/
def TextClassifier.forward {α β : Type} (net : TextClassifier α β)
    (inputIds : List Nat) : Option β :=
  let x := inputIds.map net.embedding
  let x := net.lstm x
  match x[0]? with
  | none => none
  | some x0 =>
    let x := net.dropout x0
    let x := net.relu (net.fc1 x)
    some (net.fc2 x)

/-- Modelled from the spec wording of the claim under examination: the same
head applied to the final time-step (`x[:, -1, :]`) instead of the first, for
comparison with the source behaviour. -/
def TextClassifier.forwardLastStep {α β : Type} (net : TextClassifier α β)
    (inputIds : List Nat) : Option β :=
  let x := inputIds.map net.embedding
  let x := net.lstm x
  match x.getLast? with
  | none => none
  | some xl =>
    let x := net.dropout xl
    let x := net.relu (net.fc1 x)
    some (net.fc2 x)

/-- Concrete instantiation of the network in which every library layer is the
identity on `Nat` features, used to separate first-time-step selection from
last-time-step selection. -/
def demoNet : TextClassifier Nat Nat :=
  { embedding := id, lstm := id, dropout := id, fc1 := id, relu := id, fc2 := id }

/-! ### Runtime model objects held in strategy state -/

/-- The trained PyTorch model object held in `self.model`: its class count (the
size of the final dense layer) plus its numeric scoring function, which is
determined by the library-trained weights and therefore abstract; `run` maps a
padded token sequence to the per-class output scores. -/
structure TorchModel where
  num_classes : Nat
  run : List Nat → List Int

/-- The compiled keras model object held in `self.model`: the declared names of
its input and output layers (set by `_build_model` at lines 233 and 238) and
its library-determined scoring function. -/
structure TFModel where
  inputName : String
  outputName : String
  run : List Nat → List Int

/-- The fitted sklearn pipeline: `classes_` of the logistic regression (the
sorted distinct values of the target array passed to `fit`), the fitted
vectorizer vocabulary, and the library-learned decision function, abstracted
as an index-selecting function. -/
structure FittedPipeline where
  classes : List PyVal
  vocabulary_ : List (String × Nat)
  decision : String → Nat

/-- Prediction of the fitted pipeline on one sample: the decision function
selects one of the classes stored at `fit` time (`none` only for an empty
class array, which a fitted classifier cannot have). -/
def FittedPipeline.predictOne (p : FittedPipeline) (x : String) : Option PyVal :=
  p.classes[p.decision x % p.classes.length]?

/-- Fitting the sklearn pipeline `Pipeline([("tfidf", ...), ("clf",
LogisticRegression(...))])` on texts `X` and integer targets `y`: the
classifier stores `classes_ = numpy.unique(y)` — the sorted distinct values of
the target array it was fitted on — and the learned decision function is
library-determined, so it is supplied as the parameter `learn`. -/
def pipelineFit (learn : List String → List Nat → String → Nat)
    (X : List String) (y : List Nat) : FittedPipeline :=
  { classes := (uniqueSorted natLeb (uniqueList y)).map PyVal.int
    vocabulary_ := fitOnTexts X
    decision := learn X y }

/-- Modelled from the spec wording of the claim under examination: a pipeline
fitted directly on the raw label strings (so that `predict` would return label
strings), for comparison with the source, which fits on the encoded integer
targets. -/
def pipelineFitOnRawLabels (learn : List String → List Nat → String → Nat)
    (X : List String) (y : List String) : FittedPipeline :=
  { classes := (uniqueSorted strLeb (uniqueList y)).map PyVal.str
    vocabulary_ := fitOnTexts X
    decision := learn X [] }

/-! ### Artifacts, filesystem effects -/

/-- Contents of a persisted artifact file. ONNX graph internals beyond the
declared interface are produced by the conversion libraries and are opaque. -/
inductive Artifact where
  | stateDict
  | kerasModel (m : TFModel)
  | pickledPipeline (p : Option FittedPipeline)
  | jsonVocab (wordIndex : List (String × Nat))
  | jsonScaler (entries : List (String × String))
  | onnxGraph (cfg : ExportConfig)

/-- Filesystem side effects performed by save/export, in program order. -/
inductive Eff where
  | mkdir (path : String)
  | write (path : String) (a : Artifact)

/-- Filesystem contents visible to `load_model`: a map from path to artifact. -/
def FS : Type := List (String × Artifact)

/-- Read a file from the modelled filesystem. -/
def FS.read (fs : FS) (path : String) : Option Artifact := lookupStr path fs

/-! ### PyTorchLSTMStrategy (multiclass.py lines 45-213) -/

/-- Instance attributes of `PyTorchLSTMStrategy` (lines 46-64): configuration
sizes, the tokenizer's `word_index`, the label encoder's `classes_` (`none`
while the encoder is unfitted, in which case attribute access raises
AttributeError), the model (`None` until built), the `_is_trained` flag and
the configured `output_path`. -/
structure PyTorchLSTMStrategy where
  vocab_size : Nat
  embedding_dim : Nat
  hidden_dim : Nat
  max_len : Nat
  word_index : List (String × Nat)
  classes_ : Option (List String)
  model : Option TorchModel
  is_trained : Bool
  output_path : String

namespace PyTorchLSTMStrategy

/-- Constructor `__init__` (lines 46-64): empty tokenizer, unfitted label
encoder, `model = None`, `_is_trained = False`. -/
def init (vocab_size embedding_dim hidden_dim max_len : Nat)
    (output_path : String) : PyTorchLSTMStrategy :=
  { vocab_size, embedding_dim, hidden_dim, max_len,
    word_index := [], classes_ := none, model := none,
    is_trained := false, output_path }

/-- Method `_build_model` (lines 66-95) at the strategy level: constructs the
network sized to `num_classes`; the numeric scoring function of the freshly
initialised (or subsequently library-trained) weights is not modelled. -/
def build_model (_self : PyTorchLSTMStrategy) (num_classes : Nat) : TorchModel :=
  { num_classes, run := fun _ => List.replicate num_classes 0 }

/-- Tokenize-then-pad preprocessing shared by `train` (lines 106-115) and
`predict` (lines 164-165): `texts_to_sequences` followed by
`pad_sequences(..., maxlen=self.max_len, padding="post")`. -/
def preprocess (self : PyTorchLSTMStrategy) (X : List String) : List (List Nat) :=
  X.map (fun x => padSequencesPost self.max_len (textToSeq self.word_index x))

/-- Method `predict` (lines 161-170): no trained-flag check; the first
statement `self.model.eval()` raises AttributeError when `self.model` is
`None`; otherwise tokenizes, pads and returns the argmax class indices. -/
def predict (self : PyTorchLSTMStrategy) (X : List String) :
    Except PyErr (List Nat) × PyTorchLSTMStrategy :=
  match self.model with
  | none => (.error (.attributeError "NoneType object has no attribute eval"), self)
  | some m => (.ok ((self.preprocess X).map (fun s => argmaxIdx (m.run s))), self)

/-- Method `export_to_onnx` (lines 198-213): trained-flag check raising
RuntimeError (lines 200-201), then `self.model.eval()` (line 202), then
`torch.onnx.export` with the interface of `ptOnnxCfg`. -/
def export_to_onnx (self : PyTorchLSTMStrategy) :
    Except PyErr Unit × List Eff × PyTorchLSTMStrategy :=
  if self.is_trained = false then
    (.error (.runtimeError "Model must be trained before exporting to ONNX"), [], self)
  else
    match self.model with
    | none => (.error (.attributeError "NoneType object has no attribute eval"), [], self)
    | some _ =>
      (.ok (), [Eff.write (saveOnnxPath self.output_path) (Artifact.onnxGraph ptOnnxCfg)], self)

/-- Method `save_model` (lines 172-183): untrained check (lines 173-174), then
`os.makedirs("models")` (line 175), the three writes under `output_path`
(weights, `vocab.json`, `scaler.json`, lines 176-182), then
`self.export_to_onnx()` (line 183).  A trained instance whose model or encoder
state is missing fails at the corresponding attribute access. -/
def save_model (self : PyTorchLSTMStrategy) :
    Except PyErr Unit × List Eff × PyTorchLSTMStrategy :=
  if self.is_trained = false then
    (.error (.runtimeError "Cannot save untrained model"), [], self)
  else
    match self.model, self.classes_ with
    | some _, some cls =>
      let effs := [Eff.mkdir "models",
        Eff.write (ptSaveModelPath self.output_path) Artifact.stateDict,
        Eff.write (saveVocabPath self.output_path) (Artifact.jsonVocab self.word_index),
        Eff.write (saveScalerPath self.output_path) (Artifact.jsonScaler (scalerEntries cls))]
      match self.export_to_onnx with
      | (.ok _, exEffs, self) => (.ok (), effs ++ exEffs, self)
      | (.error e, exEffs, self) => (.error e, effs ++ exEffs, self)
    | none, _ =>
      (.error (.attributeError "NoneType object has no attribute state_dict"),
        [Eff.mkdir "models"], self)
    | some _, none =>
      (.error (.attributeError "LabelEncoder object has no attribute classes_"),
        [Eff.mkdir "models",
         Eff.write (ptSaveModelPath self.output_path) Artifact.stateDict,
         Eff.write (saveVocabPath self.output_path) (Artifact.jsonVocab self.word_index)], self)

/-- Method `train` (lines 97-159): fit the tokenizer on train+test text (line
105), pad both partitions (lines 106-115, sequences consumed by the library
data loader), `fit_transform` the training labels and `transform` the test
labels (lines 118-119, the latter raising on unseen labels), build the model
from the class count (line 122), run the library optimizer for 10 epochs
(lines 125-145, weight updates are library-internal), set `_is_trained` (line
147), then evaluate via `self.predict` (lines 150-151) and return the metrics
dictionary (lines 153-159). -/
def train (self : PyTorchLSTMStrategy) (Xtr ytr Xte yte : List String) :
    Except PyErr Metrics × PyTorchLSTMStrategy :=
  let self := { self with word_index := fitOnTexts (Xtr ++ Xte) }
  let _XtrSeq := self.preprocess Xtr
  let _XteSeq := self.preprocess Xte
  let fitRes := labelFitTransform ytr
  let classes := fitRes.1
  let ytrEnc := fitRes.2
  let self := { self with classes_ := some classes }
  match labelTransform classes yte with
  | .error e => (.error e, self)
  | .ok yteEnc =>
    let self := { self with model := some (self.build_model classes.length) }
    let self := { self with is_trained := true }
    match self.predict Xtr with
    | (.error e, self) => (.error e, self)
    | (.ok trainPred, self) =>
      match self.predict Xte with
      | (.error e, self) => (.error e, self)
      | (.ok testPred, self) =>
        (.ok { trainAccuracy := accuracyScore ytrEnc trainPred
               testAccuracy := accuracyScore yteEnc testPred }, self)

/-- Method `load_model` (lines 185-196): rebuilds the network from
`len(self.label_encoder.classes_)` — the encoder state held *before* any
artifact is read, so a fresh instance raises AttributeError here (line 186) —
then loads the weights from `models/{prefix}_model.pt` (line 187), the
vocabulary (lines 189-190) and the label map (lines 191-195) from the
hardcoded `models/` root, finally setting `_is_trained` (line 196). -/
def load_model (self : PyTorchLSTMStrategy) (filename_pfx : String) (fs : FS) :
    Except PyErr Unit × PyTorchLSTMStrategy :=
  match self.classes_ with
  | none => (.error (.attributeError "LabelEncoder object has no attribute classes_"), self)
  | some cls =>
    let self := { self with model := some (self.build_model cls.length) }
    match fs.read (ptLoadModelPath filename_pfx) with
    | some Artifact.stateDict =>
      match fs.read (loadVocabPath filename_pfx) with
      | some (Artifact.jsonVocab wi) =>
        let self := { self with word_index := wi }
        match fs.read (loadScalerPath filename_pfx) with
        | some (Artifact.jsonScaler entries) =>
          match scalerToClasses entries with
          | some cls2 => (.ok (), { self with classes_ := some cls2, is_trained := true })
          | none => (.error (.keyError "scaler.json key missing"), self)
        | some _ => (.error (.typeError "unexpected artifact"), self)
        | none => (.error (.fileNotFoundError (loadScalerPath filename_pfx)), self)
      | some _ => (.error (.typeError "unexpected artifact"), self)
      | none => (.error (.fileNotFoundError (loadVocabPath filename_pfx)), self)
    | some _ => (.error (.typeError "unexpected artifact"), self)
    | none => (.error (.fileNotFoundError (ptLoadModelPath filename_pfx)), self)

end PyTorchLSTMStrategy

/-! ### TensorFlowLSTMStrategy (multiclass.py lines 216-337) -/

/-- Instance attributes of `TensorFlowLSTMStrategy` (lines 217-230). -/
structure TensorFlowLSTMStrategy where
  vocab_size : Nat
  max_len : Nat
  word_index : List (String × Nat)
  classes_ : Option (List String)
  model : Option TFModel
  is_trained : Bool
  output_path : String

namespace TensorFlowLSTMStrategy

/-- Constructor `__init__` (lines 217-230). -/
def init (vocab_size max_len : Nat) (output_path : String) : TensorFlowLSTMStrategy :=
  { vocab_size, max_len, word_index := [], classes_ := none, model := none,
    is_trained := false, output_path }

/-- Method `_build_model` (lines 232-245): the keras functional model whose
input layer is named `"input"` (line 233) and whose output layer is named
`"output"` (line 238); layer internals and compiled weights are
library-provided. -/
def build_model (num_classes : Nat) : TFModel :=
  { inputName := "input", outputName := "output",
    run := fun _ => List.replicate num_classes 0 }

/-- Tokenize-then-pad preprocessing of `train` (lines 256-265), identical in
shape to the PyTorch strategy's. -/
def preprocess (self : TensorFlowLSTMStrategy) (X : List String) : List (List Nat) :=
  X.map (fun x => padSequencesPost self.max_len (textToSeq self.word_index x))

/-- Method `predict` (lines 297-298): takes already-shaped sequences, performs
no trained-flag check, and raises AttributeError on `self.model.predict` when
the model is `None`. -/
def predict (self : TensorFlowLSTMStrategy) (Xseq : List (List Nat)) :
    Except PyErr (List Nat) × TensorFlowLSTMStrategy :=
  match self.model with
  | none => (.error (.attributeError "NoneType object has no attribute predict"), self)
  | some m => (.ok (Xseq.map (fun s => argmaxIdx (m.run s))), self)

/-- Method `export_to_onnx` (lines 324-337): trained check (lines 326-327),
`TensorSpec((None, max_len), name="input")` (line 330: dynamic batch
dimension, input named `"input"`), `os.makedirs` on the output directory (line
331), then `tf2onnx.convert.from_keras(self.model, ..., opset=17)` whose
output tensor carries the keras model's output layer name. -/
def export_to_onnx (self : TensorFlowLSTMStrategy) :
    Except PyErr Unit × List Eff × TensorFlowLSTMStrategy :=
  if self.is_trained = false then
    (.error (.runtimeError "Model must be trained before exporting to ONNX"), [], self)
  else
    match self.model with
    | none =>
      (.error (.attributeError "NoneType object has no attribute output_names"),
        [Eff.mkdir self.output_path], self)
    | some m =>
      (.ok (), [Eff.mkdir self.output_path,
        Eff.write (saveOnnxPath self.output_path)
          (Artifact.onnxGraph { inputNames := ["input"], outputNames := [m.outputName],
                                batchDynamic := true, opset := 17 })], self)

/-- Method `save_model` (lines 300-311): untrained check (lines 301-302),
`os.makedirs("models")` (line 303), the three writes under `output_path`
(lines 304-310), then `self.export_to_onnx()` (line 311). -/
def save_model (self : TensorFlowLSTMStrategy) :
    Except PyErr Unit × List Eff × TensorFlowLSTMStrategy :=
  if self.is_trained = false then
    (.error (.runtimeError "Cannot save untrained model"), [], self)
  else
    match self.model, self.classes_ with
    | some m, some cls =>
      let effs := [Eff.mkdir "models",
        Eff.write (tfSaveModelPath self.output_path) (Artifact.kerasModel m),
        Eff.write (saveVocabPath self.output_path) (Artifact.jsonVocab self.word_index),
        Eff.write (saveScalerPath self.output_path) (Artifact.jsonScaler (scalerEntries cls))]
      match self.export_to_onnx with
      | (.ok _, exEffs, self) => (.ok (), effs ++ exEffs, self)
      | (.error e, exEffs, self) => (.error e, effs ++ exEffs, self)
    | none, _ =>
      (.error (.attributeError "NoneType object has no attribute save"),
        [Eff.mkdir "models"], self)
    | some m, none =>
      (.error (.attributeError "LabelEncoder object has no attribute classes_"),
        [Eff.mkdir "models",
         Eff.write (tfSaveModelPath self.output_path) (Artifact.kerasModel m),
         Eff.write (saveVocabPath self.output_path) (Artifact.jsonVocab self.word_index)], self)

/-- Method `train` (lines 247-295): mirrors the PyTorch strategy's order —
tokenizer fit, padding, label `fit_transform`/`transform` (lines 270-271),
model build (line 274), `model.fit` for 10 epochs (library), `_is_trained`
set (line 283), metrics from `self.model.predict` on the padded partitions
(lines 286-295). -/
def train (self : TensorFlowLSTMStrategy) (Xtr ytr Xte yte : List String) :
    Except PyErr Metrics × TensorFlowLSTMStrategy :=
  let self := { self with word_index := fitOnTexts (Xtr ++ Xte) }
  let XtrSeq := self.preprocess Xtr
  let XteSeq := self.preprocess Xte
  let fitRes := labelFitTransform ytr
  let classes := fitRes.1
  let ytrEnc := fitRes.2
  let self := { self with classes_ := some classes }
  match labelTransform classes yte with
  | .error e => (.error e, self)
  | .ok yteEnc =>
    let m := build_model classes.length
    let self := { self with model := some m }
    let self := { self with is_trained := true }
    let trainPred := XtrSeq.map (fun s => argmaxIdx (m.run s))
    let testPred := XteSeq.map (fun s => argmaxIdx (m.run s))
    (.ok { trainAccuracy := accuracyScore ytrEnc trainPred
           testAccuracy := accuracyScore yteEnc testPred }, self)

/-- Method `load_model` (lines 313-322): loads the keras model, vocabulary and
label map from the hardcoded `models/` root, then sets `_is_trained`. -/
def load_model (self : TensorFlowLSTMStrategy) (filename_pfx : String) (fs : FS) :
    Except PyErr Unit × TensorFlowLSTMStrategy :=
  match fs.read (tfLoadModelPath filename_pfx) with
  | some (Artifact.kerasModel m) =>
    let self := { self with model := some m }
    match fs.read (loadVocabPath filename_pfx) with
    | some (Artifact.jsonVocab wi) =>
      let self := { self with word_index := wi }
      match fs.read (loadScalerPath filename_pfx) with
      | some (Artifact.jsonScaler entries) =>
        match scalerToClasses entries with
        | some cls2 => (.ok (), { self with classes_ := some cls2, is_trained := true })
        | none => (.error (.keyError "scaler.json key missing"), self)
      | some _ => (.error (.typeError "unexpected artifact"), self)
      | none => (.error (.fileNotFoundError (loadScalerPath filename_pfx)), self)
    | some _ => (.error (.typeError "unexpected artifact"), self)
    | none => (.error (.fileNotFoundError (loadVocabPath filename_pfx)), self)
  | some _ => (.error (.typeError "unexpected artifact"), self)
  | none => (.error (.fileNotFoundError (tfLoadModelPath filename_pfx)), self)

end TensorFlowLSTMStrategy

/-! ### ScikitLearnTFIDFStrategy (multiclass.py lines 340-426) -/

/-- Instance attributes of `ScikitLearnTFIDFStrategy` (lines 341-354):
`max_len` is set to `max_features` (line 345); `pipeline` is `none` while the
constructed `Pipeline` object is still unfitted. -/
structure ScikitLearnTFIDFStrategy where
  max_features : Nat
  max_len : Nat
  pipeline : Option FittedPipeline
  classes_ : Option (List String)
  is_trained : Bool
  output_path : String

namespace ScikitLearnTFIDFStrategy

/-- Constructor `__init__` (lines 341-354). -/
def init (max_features : Nat) (output_path : String) : ScikitLearnTFIDFStrategy :=
  { max_features, max_len := max_features, pipeline := none, classes_ := none,
    is_trained := false, output_path }

/-- Method `train` (lines 356-381): `fit_transform` the training labels and
`transform` the test labels (lines 364-365, the latter raising on unseen
labels), fit the pipeline on the *encoded integer* targets (line 368:
`self.pipeline.fit(X_train, y_train_enc)`), set `_is_trained` (line 369), then
compute the metrics from `self.pipeline.predict` (lines 372-381).  The
library-learned decision function is the parameter `learn`. -/
def train (learn : List String → List Nat → String → Nat)
    (self : ScikitLearnTFIDFStrategy) (Xtr ytr Xte yte : List String) :
    Except PyErr Metrics × ScikitLearnTFIDFStrategy :=
  let fitRes := labelFitTransform ytr
  let classes := fitRes.1
  let ytrEnc := fitRes.2
  let self := { self with classes_ := some classes }
  match labelTransform classes yte with
  | .error e => (.error e, self)
  | .ok yteEnc =>
    let p := pipelineFit learn Xtr ytrEnc
    let self := { self with pipeline := some p, is_trained := true }
    let trainPred := Xtr.map p.predictOne
    let testPred := Xte.map p.predictOne
    (.ok { trainAccuracy := accuracyScorePy ytrEnc trainPred
           testAccuracy := accuracyScorePy yteEnc testPred }, self)

/-- Method `predict` (lines 383-386): the only strategy that checks the
trained flag in `predict`, raising `RuntimeError("Model must be trained before
predicting")`; otherwise returns `self.pipeline.predict(X)`, whose values are
drawn from the classes the pipeline was fitted on. -/
def predict (self : ScikitLearnTFIDFStrategy) (X : List String) :
    Except PyErr (List (Option PyVal)) × ScikitLearnTFIDFStrategy :=
  if self.is_trained = false then
    (.error (.runtimeError "Model must be trained before predicting"), self)
  else
    match self.pipeline with
    | none => (.error (.valueError "pipeline is not fitted"), self)
    | some p => (.ok (X.map p.predictOne), self)

/-- Method `export_to_onnx` (lines 415-426): trained check (lines 417-418),
`initial_types=[("input", StringTensorType([None]))]` (line 419: input named
`"input"`, dynamic batch dimension), `os.makedirs` (line 420), then
`convert_sklearn(self.pipeline, ..., target_opset=17)` with no declared output
names (line 421-423): the interface is `skOnnxCfg`. -/
def export_to_onnx (self : ScikitLearnTFIDFStrategy) :
    Except PyErr Unit × List Eff × ScikitLearnTFIDFStrategy :=
  if self.is_trained = false then
    (.error (.runtimeError "Model must be trained before exporting to ONNX"), [], self)
  else
    match self.pipeline with
    | none => (.error (.valueError "pipeline is not fitted"), [Eff.mkdir self.output_path], self)
    | some _ =>
      (.ok (), [Eff.mkdir self.output_path,
        Eff.write (saveOnnxPath self.output_path) (Artifact.onnxGraph skOnnxCfg)], self)

/-- Method `save_model` (lines 388-401): untrained check (lines 389-390), dump
of the pipeline (line 391), the vectorizer vocabulary (lines 392-396) and the
label map (lines 397-400) under `output_path`, then `self.export_to_onnx()`
(line 401); no `os.makedirs` call of its own. -/
def save_model (self : ScikitLearnTFIDFStrategy) :
    Except PyErr Unit × List Eff × ScikitLearnTFIDFStrategy :=
  if self.is_trained = false then
    (.error (.runtimeError "Cannot save untrained model"), [], self)
  else
    match self.pipeline, self.classes_ with
    | some p, some cls =>
      let effs := [
        Eff.write (skSaveModelPath self.output_path) (Artifact.pickledPipeline (some p)),
        Eff.write (saveVocabPath self.output_path) (Artifact.jsonVocab p.vocabulary_),
        Eff.write (saveScalerPath self.output_path) (Artifact.jsonScaler (scalerEntries cls))]
      match self.export_to_onnx with
      | (.ok _, exEffs, self) => (.ok (), effs ++ exEffs, self)
      | (.error e, exEffs, self) => (.error e, effs ++ exEffs, self)
    | none, _ =>
      (.error (.attributeError "TfidfVectorizer object has no attribute vocabulary_"),
        [Eff.write (skSaveModelPath self.output_path) (Artifact.pickledPipeline none)], self)
    | some p, none =>
      (.error (.attributeError "LabelEncoder object has no attribute classes_"),
        [Eff.write (skSaveModelPath self.output_path) (Artifact.pickledPipeline (some p)),
         Eff.write (saveVocabPath self.output_path) (Artifact.jsonVocab p.vocabulary_)], self)

/-- Method `load_model` (lines 403-413): loads the pickled pipeline, overwrites
its vectorizer vocabulary from `vocab.json` (line 407), rebuilds `classes_`
from `scaler.json` (lines 408-412), then sets `_is_trained` (line 413), all
from the hardcoded `models/` root. -/
def load_model (self : ScikitLearnTFIDFStrategy) (filename_pfx : String) (fs : FS) :
    Except PyErr Unit × ScikitLearnTFIDFStrategy :=
  match fs.read (skLoadModelPath filename_pfx) with
  | some (Artifact.pickledPipeline p) =>
    let self := { self with pipeline := p }
    match fs.read (loadVocabPath filename_pfx) with
    | some (Artifact.jsonVocab wi) =>
      let self := { self with
        pipeline := self.pipeline.map (fun q => { q with vocabulary_ := wi }) }
      match fs.read (loadScalerPath filename_pfx) with
      | some (Artifact.jsonScaler entries) =>
        match scalerToClasses entries with
        | some cls2 => (.ok (), { self with classes_ := some cls2, is_trained := true })
        | none => (.error (.keyError "scaler.json key missing"), self)
      | some _ => (.error (.typeError "unexpected artifact"), self)
      | none => (.error (.fileNotFoundError (loadScalerPath filename_pfx)), self)
    | some _ => (.error (.typeError "unexpected artifact"), self)
    | none => (.error (.fileNotFoundError (loadVocabPath filename_pfx)), self)
  | some _ => (.error (.typeError "unexpected artifact"), self)
  | none => (.error (.fileNotFoundError (skLoadModelPath filename_pfx)), self)

end ScikitLearnTFIDFStrategy

/-! ### Concrete instances used by counterexamples and witnesses -/

/-- Training texts from the spec's end-to-end scenario (spec section 8). -/
def demoXtr : List String := ["good product", "bad product", "great service", "terrible service"]

/-- Training labels from the spec's end-to-end scenario. -/
def demoYtr : List String := ["pos", "neg", "pos", "neg"]

/-- Test texts for the demo scenario. -/
def demoXte : List String := ["good service", "bad product"]

/-- Test labels for the demo scenario. -/
def demoYte : List String := ["pos", "neg"]

/-- Concrete stand-in for the library-learned logistic-regression decision
function: always selects decision index 0. -/
def demoLearn : List String → List Nat → String → Nat := fun _ _ _ => 0

/-- A scikit-learn strategy trained on the demo scenario. -/
def skDemoTrained : ScikitLearnTFIDFStrategy :=
  (ScikitLearnTFIDFStrategy.train demoLearn
    (ScikitLearnTFIDFStrategy.init 10000 "models/demo") demoXtr demoYtr demoXte demoYte).2

/-- A TensorFlow strategy trained on the demo scenario. -/
def tfDemoTrained : TensorFlowLSTMStrategy :=
  (TensorFlowLSTMStrategy.train
    (TensorFlowLSTMStrategy.init 10000 30 "models/demo") demoXtr demoYtr demoXte demoYte).2

/-- A trained PyTorch strategy state with explicit fitted attributes. -/
def ptDemoState : PyTorchLSTMStrategy :=
  { vocab_size := 10000, embedding_dim := 64, hidden_dim := 64, max_len := 30,
    word_index := [("good", 1)], classes_ := some ["neg", "pos"],
    model := some { num_classes := 2, run := fun _ => [0, 0] },
    is_trained := true, output_path := "models/demo" }

/-- A trained TensorFlow strategy state with explicit fitted attributes. -/
def tfDemoState : TensorFlowLSTMStrategy :=
  { vocab_size := 10000, max_len := 30,
    word_index := [("good", 1)], classes_ := some ["neg", "pos"],
    model := some { inputName := "input", outputName := "output", run := fun _ => [0, 0] },
    is_trained := true, output_path := "models/demo" }

/-- A trained scikit-learn strategy state with explicit fitted attributes. -/
def skDemoState : ScikitLearnTFIDFStrategy :=
  { max_features := 10000, max_len := 10000,
    pipeline := some { classes := [PyVal.int 0, PyVal.int 1],
                       vocabulary_ := [("good", 0)], decision := fun _ => 0 },
    classes_ := some ["neg", "pos"], is_trained := true, output_path := "models/demo" }

/-! ### Helper lemmas: sorting, membership, indexing -/

theorem insertSorted_perm {α : Type} (le : α → α → Bool) (a : α) (l : List α) :
    (insertSorted le a l).Perm (a :: l) := by
  induction l with
  | nil => simp [insertSorted]
  | cons b bs ih =>
    by_cases h : le a b
    · simp [insertSorted, h]
    · simp only [insertSorted, if_neg h]
      exact (ih.cons b).trans (List.Perm.swap a b bs)

theorem sortBy_perm {α : Type} (le : α → α → Bool) (l : List α) :
    (sortBy le l).Perm l := by
  induction l with
  | nil => simp [sortBy]
  | cons b bs ih =>
    exact (insertSorted_perm le b (sortBy le bs)).trans (ih.cons b)

theorem mem_sortBy {α : Type} (le : α → α → Bool) (a : α) (l : List α) :
    a ∈ sortBy le l ↔ a ∈ l :=
  (sortBy_perm le l).mem_iff

theorem mem_uniqueList {α : Type} [DecidableEq α] (a : α) (l : List α) :
    a ∈ uniqueList l ↔ a ∈ l := by
  induction l with
  | nil => simp [uniqueList]
  | cons b bs ih =>
    by_cases h : b ∈ uniqueList bs
    · simp only [uniqueList, if_pos h]
      constructor
      · intro ha; exact List.mem_cons_of_mem b (ih.1 ha)
      · intro ha
        rcases List.mem_cons.1 ha with rfl | ha
        · exact h
        · exact ih.2 ha
    · simp only [uniqueList, if_neg h]
      simp [List.mem_cons, ih]

theorem mem_uniqueSorted {α : Type} [DecidableEq α] (le : α → α → Bool) (a : α) (l : List α) :
    a ∈ uniqueSorted le l ↔ a ∈ l :=
  (mem_sortBy le a (uniqueList l)).trans (mem_uniqueList a l)

theorem listIdx_lt_length {α : Type} [DecidableEq α] {a : α} {l : List α} (h : a ∈ l) :
    listIdx a l < l.length := by
  induction l with
  | nil => cases h
  | cons b bs ih =>
    by_cases hab : a = b
    · simp [listIdx, hab]
    · rcases List.mem_cons.1 h with h' | h'
      · exact absurd h' hab
      · simpa [listIdx, hab] using Nat.succ_lt_succ (ih h')

theorem getElem?_listIdx {α : Type} [DecidableEq α] {a : α} {l : List α} (h : a ∈ l) :
    l[listIdx a l]? = some a := by
  induction l with
  | nil => cases h
  | cons b bs ih =>
    by_cases hab : a = b
    · simp [listIdx, hab]
    · rcases List.mem_cons.1 h with h' | h'
      · exact absurd h' hab
      · simpa [listIdx, hab] using ih h'

/-! ### Helper lemmas: decimal stringification (`str(i)` / `Nat.repr`) -/

/-- Numeric value of a decimal digit character. -/
def charVal (c : Char) : Nat := c.toNat - 48

/-- Numeric value of a digit string read left to right, starting from `acc`. -/
def digitsVal (acc : Nat) (l : List Char) : Nat :=
  l.foldl (fun a c => a * 10 + charVal c) acc

theorem charVal_digitChar {d : Nat} (h : d < 10) : charVal (Nat.digitChar d) = d := by
  have hall : ∀ e < 10, charVal (Nat.digitChar e) = e := by decide
  exact hall d h

theorem digitsVal_append_singleton (acc : Nat) (l : List Char) (c : Char) :
    digitsVal acc (l ++ [c]) = (digitsVal acc l) * 10 + charVal c := by
  simp [digitsVal, List.foldl_append]

theorem toDigitsCore_append (b fuel n : Nat) (ds : List Char) :
    Nat.toDigitsCore b fuel n ds = Nat.toDigitsCore b fuel n [] ++ ds := by
  induction fuel generalizing n ds with
  | zero => simp [Nat.toDigitsCore]
  | succ f ih =>
    by_cases h : n / b = 0
    · simp [Nat.toDigitsCore, h]
    · rw [show Nat.toDigitsCore b (f + 1) n ds
            = Nat.toDigitsCore b f (n / b) (Nat.digitChar (n % b) :: ds) from by
          simp [Nat.toDigitsCore, h],
        show Nat.toDigitsCore b (f + 1) n []
            = Nat.toDigitsCore b f (n / b) [Nat.digitChar (n % b)] from by
          simp [Nat.toDigitsCore, h],
        ih (n / b) (Nat.digitChar (n % b) :: ds),
        ih (n / b) [Nat.digitChar (n % b)]]
      simp

theorem digitsVal_toDigitsCore :
    ∀ (fuel n : Nat), n < fuel → ∀ (acc : Nat),
      digitsVal acc (Nat.toDigitsCore 10 fuel n []) =
        acc * 10 ^ (Nat.toDigitsCore 10 fuel n []).length + n := by
  intro fuel
  induction fuel with
  | zero => intro n h; omega
  | succ f ih =>
    intro n h acc
    by_cases hz : n / 10 = 0
    · have hlt : n < 10 := by omega
      rw [show Nat.toDigitsCore 10 (f + 1) n [] = [Nat.digitChar (n % 10)] from by
        simp [Nat.toDigitsCore, hz]]
      rw [Nat.mod_eq_of_lt hlt]
      simp [digitsVal, charVal_digitChar hlt, pow_one]
    · have h1 : 1 ≤ n := by omega
      have hrec : n / 10 < f := by
        have := Nat.div_lt_self h1 (by norm_num : 1 < 10)
        omega
      rw [show Nat.toDigitsCore 10 (f + 1) n []
            = Nat.toDigitsCore 10 f (n / 10) [Nat.digitChar (n % 10)] from by
          simp [Nat.toDigitsCore, hz],
        toDigitsCore_append 10 f (n / 10) [Nat.digitChar (n % 10)],
        digitsVal_append_singleton, ih (n / 10) hrec acc,
        charVal_digitChar (Nat.mod_lt n (by norm_num))]
      have hdm : n / 10 * 10 + n % 10 = n := by omega
      rw [List.length_append, List.length_singleton]
      calc (acc * 10 ^ (Nat.toDigitsCore 10 f (n / 10) []).length + n / 10) * 10 + n % 10
          = acc * (10 ^ (Nat.toDigitsCore 10 f (n / 10) []).length * 10)
            + (n / 10 * 10 + n % 10) := by ring
        _ = acc * 10 ^ ((Nat.toDigitsCore 10 f (n / 10) []).length + 1) + n := by
            rw [hdm, pow_succ]

theorem digitsVal_repr (n : Nat) : digitsVal 0 (Nat.repr n).data = n := by
  have h := digitsVal_toDigitsCore (n + 1) n (by omega) 0
  simpa [Nat.repr, Nat.toDigits, List.asString] using h

theorem nat_repr_injective : Function.Injective Nat.repr := by
  intro m n h
  have h2 := congrArg (fun s => digitsVal 0 s.data) h
  simpa [digitsVal_repr] using h2

/-! ### Helper lemmas: scaler.json lookup -/

theorem lookup_repr_enumFrom (cs : List String) :
    ∀ (k i : Nat), i < cs.length →
      lookupStr (Nat.repr (k + i))
        ((cs.enumFrom k).map (fun p => (Nat.repr p.1, p.2))) = cs[i]? := by
  induction cs with
  | nil => intro k i h; simp at h
  | cons c r ih =>
    intro k i h
    cases i with
    | zero => simp [List.enumFrom, lookupStr]
    | succ j =>
      have hne : Nat.repr (k + (j + 1)) ≠ Nat.repr k := by
        intro hEq
        have := nat_repr_injective hEq
        omega
      have hk : k + (j + 1) = (k + 1) + j := by omega
      simp only [List.enumFrom, List.map_cons, lookupStr, if_neg hne]
      rw [hk, ih (k + 1) j (by simpa using h)]
      simp

/-! ### Helper lemmas: string paths -/

theorem string_data_append (s t : String) : (s ++ t).data = s.data ++ t.data := by
  cases s; cases t; rfl

theorem string_eq_of_data {s t : String} (h : s.data = t.data) : s = t := by
  cases s; cases t; exact congrArg String.mk h

theorem append_ne_append_of_suffix_ne (a b s t : String)
    (hlen : s.data.length = t.data.length) (hne : s ≠ t) : a ++ s ≠ b ++ t := by
  intro h
  apply hne
  have hd := congrArg String.data h
  rw [string_data_append, string_data_append] at hd
  exact string_eq_of_data (List.append_inj' hd hlen).2

/-! ### Helper lemmas: sequence padding -/

theorem padSequencesPost_length (m : Nat) (s : List Nat) :
    (padSequencesPost m s).length = m := by
  by_cases h : m < s.length
  · simp only [padSequencesPost, if_pos h, List.length_append, List.length_drop,
      List.length_replicate]
    omega
  · simp only [padSequencesPost, if_neg h, List.length_append, List.length_replicate]
    omega

theorem padSequencesPost_of_le (m : Nat) (s : List Nat) (h : s.length ≤ m) :
    padSequencesPost m s = s ++ List.replicate (m - s.length) 0 := by
  have : ¬ m < s.length := by omega
  simp [padSequencesPost, this]

theorem padSequencesPost_of_ge (m : Nat) (s : List Nat) (h : m ≤ s.length) :
    padSequencesPost m s = s.drop (s.length - m) := by
  by_cases hlt : m < s.length
  · have hz : m - (s.length - (s.length - m)) = 0 := by omega
    simp [padSequencesPost, hlt, List.length_drop, hz]
  · have hm : m = s.length := by omega
    have hz : m - s.length = 0 := by omega
    simp [padSequencesPost, hlt, hz, hm]

/-! ### Helper lemmas: Bool order -/

theorem bool_le_of_imp {a b : Bool} (h : a = true → b = true) : a ≤ b := by
  cases a <;> cases b <;> simp_all

/-! ### Claim theorems -/

/-- C2: For every strategy and every prefix, `save_model` writes its three
artifacts (model file, vocab.json, scaler.json) under the configured
`output_path`, while `load_model` reads them from the hardcoded paths
`models/{prefix}_model.*`, `models/{prefix}_vocab.json`,
`models/{prefix}_scaler.json`; the save and load locations differ — in fact
for every `output_path` and every prefix, because the saved filenames carry no
prefix while the load filenames prepend `{prefix}_` — in particular whenever
`output_path` is not the `models/` root with matching prefix naming. -/
theorem c2_save_load_path_asymmetry :
    (∀ op : String,
      ptSaveModelPath op = op ++ "/model.pt" ∧
      tfSaveModelPath op = op ++ "/model.h5" ∧
      skSaveModelPath op = op ++ "/model.pkl" ∧
      saveVocabPath op = op ++ "/vocab.json" ∧
      saveScalerPath op = op ++ "/scaler.json") ∧
    (∀ pfx : String,
      ptLoadModelPath pfx = "models/" ++ pfx ++ "_model.pt" ∧
      tfLoadModelPath pfx = "models/" ++ pfx ++ "_model.h5" ∧
      skLoadModelPath pfx = "models/" ++ pfx ++ "_model.pkl" ∧
      loadVocabPath pfx = "models/" ++ pfx ++ "_vocab.json" ∧
      loadScalerPath pfx = "models/" ++ pfx ++ "_scaler.json") ∧
    (∀ op pfx : String,
      ptSaveModelPath op ≠ ptLoadModelPath pfx ∧
      tfSaveModelPath op ≠ tfLoadModelPath pfx ∧
      skSaveModelPath op ≠ skLoadModelPath pfx ∧
      saveVocabPath op ≠ loadVocabPath pfx ∧
      saveScalerPath op ≠ loadScalerPath pfx) := by
  refine ⟨fun op => ⟨rfl, rfl, rfl, rfl, rfl⟩,
    fun pfx => ⟨rfl, rfl, rfl, rfl, rfl⟩,
    fun op pfx => ⟨?_, ?_, ?_, ?_, ?_⟩⟩
  · exact append_ne_append_of_suffix_ne op ("models/" ++ pfx) "/model.pt" "_model.pt"
      (by decide) (by decide)
  · exact append_ne_append_of_suffix_ne op ("models/" ++ pfx) "/model.h5" "_model.h5"
      (by decide) (by decide)
  · exact append_ne_append_of_suffix_ne op ("models/" ++ pfx) "/model.pkl" "_model.pkl"
      (by decide) (by decide)
  · exact append_ne_append_of_suffix_ne op ("models/" ++ pfx) "/vocab.json" "_vocab.json"
      (by decide) (by decide)
  · exact append_ne_append_of_suffix_ne op ("models/" ++ pfx) "/scaler.json" "_scaler.json"
      (by decide) (by decide)

/-- C4 counterexample: the claim says truncation is applied on the right, but
`pad_sequences` is called with only `padding="post"`, leaving the library
default `truncating="pre"`: on the over-long sequence `[1,2,3,4,5]` with
`max_len = 3` the code keeps the last three entries `[3,4,5]`, not the first
three `[1,2,3]` that right-truncation would keep. -/
theorem c4_counterexample :
    padSequencesPost 3 [1, 2, 3, 4, 5] = [3, 4, 5] ∧
    padSequencesTruncRight 3 [1, 2, 3, 4, 5] = [1, 2, 3] ∧
    padSequencesPost 3 [1, 2, 3, 4, 5] ≠ padSequencesTruncRight 3 [1, 2, 3, 4, 5] := by
  decide

/-- C4 (amended): for every input and every recurrent strategy with configured
`max_len`, the sequence produced by tokenization then `pad_sequences` has
exactly `max_len` entries, with zero-padding applied on the right when the
tokenized text is short, and truncation applied on the left — keeping the last
`max_len` tokens, the library default `truncating="pre"` — when the tokenized
text exceeds `max_len`. -/
theorem c4_amended :
    (∀ (m : Nat) (s : List Nat), (padSequencesPost m s).length = m) ∧
    (∀ (m : Nat) (s : List Nat), s.length ≤ m →
        padSequencesPost m s = s ++ List.replicate (m - s.length) 0) ∧
    (∀ (m : Nat) (s : List Nat), m ≤ s.length →
        padSequencesPost m s = s.drop (s.length - m)) ∧
    (∀ (self : PyTorchLSTMStrategy) (X : List String),
        ∀ q ∈ self.preprocess X, q.length = self.max_len) ∧
    (∀ (self : TensorFlowLSTMStrategy) (X : List String),
        ∀ q ∈ self.preprocess X, q.length = self.max_len) := by
  refine ⟨padSequencesPost_length, padSequencesPost_of_le, padSequencesPost_of_ge, ?_, ?_⟩
  · intro self X q hq
    rcases List.mem_map.1 hq with ⟨x, _, rfl⟩
    exact padSequencesPost_length self.max_len (textToSeq self.word_index x)
  · intro self X q hq
    rcases List.mem_map.1 hq with ⟨x, _, rfl⟩
    exact padSequencesPost_length self.max_len (textToSeq self.word_index x)

/-- C4 witness: concrete instances discharging each hypothesis of the amended
theorem — a short sequence is right-padded, a long one keeps its last three
entries, and a concrete strategy's preprocessed output has `max_len` entries. -/
theorem c4_amended_witness :
    (([1, 2] : List Nat).length ≤ 3 ∧
      padSequencesPost 3 [1, 2] = [1, 2] ++ List.replicate 1 0) ∧
    ((3 : Nat) ≤ ([1, 2, 3, 4, 5] : List Nat).length ∧
      padSequencesPost 3 [1, 2, 3, 4, 5] = [1, 2, 3, 4, 5].drop 2) ∧
    (([0, 0] : List Nat) ∈ (PyTorchLSTMStrategy.init 5 1 1 2 "m").preprocess ["a"] ∧
      ([0, 0] : List Nat).length = (PyTorchLSTMStrategy.init 5 1 1 2 "m").max_len) ∧
    (([0, 0] : List Nat) ∈ (TensorFlowLSTMStrategy.init 5 2 "m").preprocess ["a"] ∧
      ([0, 0] : List Nat).length = (TensorFlowLSTMStrategy.init 5 2 "m").max_len) :=
  ⟨⟨by decide, c4_amended.2.1 3 [1, 2] (by decide)⟩,
   ⟨by decide, c4_amended.2.2.1 3 [1, 2, 3, 4, 5] (by decide)⟩,
   ⟨by decide, c4_amended.2.2.2.1 (PyTorchLSTMStrategy.init 5 1 1 2 "m") ["a"]
      [0, 0] (by decide)⟩,
   ⟨by decide, c4_amended.2.2.2.2 (TensorFlowLSTMStrategy.init 5 2 "m") ["a"]
      [0, 0] (by decide)⟩⟩

/-- C5: In the PyTorch backend's forward pass (multiclass.py line 88,
`x = x[:, 0, :]`), the bidirectional LSTM's output sequence is reduced to the
single first time-step (index 0) before the dropout/dense head, for every
network instantiation and every input; and on a concrete instantiation the
result differs from reducing to the final time-step, so the selection is
genuinely the first index rather than the last. -/
theorem c5_forward_first_timestep :
    (∀ (α β : Type) (net : TextClassifier α β) (ids : List Nat),
      net.forward ids =
        ((net.lstm (ids.map net.embedding))[0]?).map
          (fun x0 => net.fc2 (net.relu (net.fc1 (net.dropout x0))))) ∧
    demoNet.forward [3, 7] = some 3 ∧
    demoNet.forwardLastStep [3, 7] = some 7 ∧
    demoNet.forward [3, 7] ≠ demoNet.forwardLastStep [3, 7] := by
  refine ⟨fun α β net ids => ?_, rfl, rfl, by decide⟩
  cases hx : (net.lstm (ids.map net.embedding))[0]? <;>
    simp [TextClassifier.forward, hx]

/-- C7: For every label string in the training label set, encoding it through
the fitted label encoder (`fit_transform`, multiclass.py line 118) and then
decoding the resulting index through the persisted scaler.json contents (the
stringified-index to label map written at lines 179-182 and read back as
`classes[str(i)]` at lines 191-195) returns the original label string. -/
theorem c7_label_roundtrip (y : List String) (l : String) (h : l ∈ y) :
    scalerDecode (scalerEntries (labelFitTransform y).1)
      (labelEncode (labelFitTransform y).1 l) = some l := by
  have hcls : (labelFitTransform y).1 = uniqueSorted strLeb y := rfl
  rw [hcls]
  have hmem : l ∈ uniqueSorted strLeb y := (mem_uniqueSorted strLeb l y).2 h
  have hlt := listIdx_lt_length hmem
  show lookupStr (Nat.repr (labelEncode (uniqueSorted strLeb y) l))
      (((uniqueSorted strLeb y).enum).map (fun p => (Nat.repr p.1, p.2))) = some l
  have henum : (uniqueSorted strLeb y).enum = (uniqueSorted strLeb y).enumFrom 0 := rfl
  rw [henum, show labelEncode (uniqueSorted strLeb y) l
        = 0 + listIdx l (uniqueSorted strLeb y) from by simp [labelEncode],
    lookup_repr_enumFrom (uniqueSorted strLeb y) 0 (listIdx l (uniqueSorted strLeb y)) hlt]
  exact getElem?_listIdx hmem

/-- C7 witness: the round trip at a concrete training label set. -/
theorem c7_label_roundtrip_witness :
    "neg" ∈ ["pos", "neg"] ∧
    scalerDecode (scalerEntries (labelFitTransform ["pos", "neg"]).1)
      (labelEncode (labelFitTransform ["pos", "neg"]).1 "neg") = some "neg" :=
  ⟨by decide, c7_label_roundtrip ["pos", "neg"] "neg" (by decide)⟩

/-- C9: Calling `load_model` on a freshly constructed `PyTorchLSTMStrategy`
fails before setting the trained flag, for every constructor argument, every
prefix and every filesystem content — even one holding all three artifacts —
because line 186 rebuilds the network from `len(self.label_encoder.classes_)`
before any artifact is read, and the fresh encoder has no `classes_`
attribute, so the AttributeError is raised from pre-load encoder state. -/
theorem c9_fresh_load_error :
    ∀ (vs ed hd ml : Nat) (op pfx : String) (fs : FS),
      (PyTorchLSTMStrategy.load_model (PyTorchLSTMStrategy.init vs ed hd ml op) pfx fs).1 =
        .error (PyErr.attributeError "LabelEncoder object has no attribute classes_") ∧
      (PyTorchLSTMStrategy.load_model
        (PyTorchLSTMStrategy.init vs ed hd ml op) pfx fs).2.is_trained = false := by
  intro vs ed hd ml op pfx fs
  exact ⟨rfl, rfl⟩

/-- C1 counterexample: the claim says every strategy's `predict` fails with an
"untrained model" error when the trained flag is unset, but a freshly
constructed `PyTorchLSTMStrategy` — whose flag is unset — fails in `predict`
with an AttributeError on the `None` model (`self.model.eval()`, line 162),
which is not one of the untrained-model errors; there is no trained-flag
check in that `predict` at all. -/
theorem c1_counterexample :
    (PyTorchLSTMStrategy.init 10000 64 64 30 "models/demo").is_trained = false ∧
    ((PyTorchLSTMStrategy.init 10000 64 64 30 "models/demo").predict ["hello"]).1 =
      .error (PyErr.attributeError "NoneType object has no attribute eval") ∧
    (PyErr.attributeError "NoneType object has no attribute eval").isUntrainedModelError
      = false :=
  ⟨rfl, rfl, rfl⟩

/-- C1 (amended): only the scikit-learn strategy's `predict` checks the trained
flag and raises the untrained-model error; the PyTorch and TensorFlow
strategies' `predict` methods have no trained-flag check and, on an instance
whose model is still `None` (as in any freshly constructed instance), fail
with an AttributeError that is not an untrained-model error.  In all three
cases the call fails rather than producing predictions. -/
theorem c1_amended :
    (∀ (self : ScikitLearnTFIDFStrategy) (X : List String), self.is_trained = false →
      (self.predict X).1 =
        .error (PyErr.runtimeError "Model must be trained before predicting") ∧
      (PyErr.runtimeError "Model must be trained before predicting").isUntrainedModelError
        = true) ∧
    (∀ (self : PyTorchLSTMStrategy) (X : List String), self.model = none →
      (self.predict X).1 =
        .error (PyErr.attributeError "NoneType object has no attribute eval") ∧
      (PyErr.attributeError "NoneType object has no attribute eval").isUntrainedModelError
        = false) ∧
    (∀ (self : TensorFlowLSTMStrategy) (Xseq : List (List Nat)), self.model = none →
      (self.predict Xseq).1 =
        .error (PyErr.attributeError "NoneType object has no attribute predict") ∧
      (PyErr.attributeError "NoneType object has no attribute predict").isUntrainedModelError
        = false) := by
  refine ⟨fun self X h => ⟨?_, rfl⟩, fun self X h => ⟨?_, rfl⟩, fun self Xseq h => ⟨?_, rfl⟩⟩
  · simp [ScikitLearnTFIDFStrategy.predict, h]
  · simp [PyTorchLSTMStrategy.predict, h]
  · simp [TensorFlowLSTMStrategy.predict, h]

/-- C1 witness: fresh instances of the three strategies discharging the
hypotheses of the amended theorem. -/
theorem c1_amended_witness :
    ((ScikitLearnTFIDFStrategy.init 10000 "models/demo").is_trained = false ∧
      ((ScikitLearnTFIDFStrategy.init 10000 "models/demo").predict ["x"]).1 =
        .error (PyErr.runtimeError "Model must be trained before predicting")) ∧
    ((PyTorchLSTMStrategy.init 10000 64 64 30 "models/demo").model = none ∧
      ((PyTorchLSTMStrategy.init 10000 64 64 30 "models/demo").predict ["x"]).1 =
        .error (PyErr.attributeError "NoneType object has no attribute eval")) ∧
    ((TensorFlowLSTMStrategy.init 10000 30 "models/demo").model = none ∧
      ((TensorFlowLSTMStrategy.init 10000 30 "models/demo").predict [[0]]).1 =
        .error (PyErr.attributeError "NoneType object has no attribute predict")) :=
  ⟨⟨rfl, (c1_amended.1 (ScikitLearnTFIDFStrategy.init 10000 "models/demo") ["x"] rfl).1⟩,
   ⟨rfl, (c1_amended.2.1 (PyTorchLSTMStrategy.init 10000 64 64 30 "models/demo")
      ["x"] rfl).1⟩,
   ⟨rfl, (c1_amended.2.2 (TensorFlowLSTMStrategy.init 10000 30 "models/demo")
      [[0]] rfl).1⟩⟩

/-- C3 counterexample: training the scikit-learn strategy on the spec's demo
scenario fits the pipeline on the *encoded integer* targets (line 368), so the
fitted classifier's classes are the integers 0 and 1 and `predict` returns an
integer class index — not one of the label strings "pos"/"neg" the claim says
it returns directly. -/
theorem c3_counterexample :
    (skDemoTrained.pipeline.map FittedPipeline.classes) =
      some [PyVal.int 0, PyVal.int 1] ∧
    (skDemoTrained.predict ["good service"]).1 = .ok [some (PyVal.int 0)] ∧
    some (PyVal.int 0) ∉ (demoYtr.map (fun l => some (PyVal.str l))) :=
  ⟨rfl, rfl, by decide⟩

/-- C3 (amended): for every trained scikit-learn strategy (trained from a fresh
instance by `train`, which fits the pipeline on the label-encoder-transformed
integer targets, line 368), every defined value `predict` returns is an
integer class index `PyVal.int i` — the same integer-index convention as the
recurrent strategies — not a label string. -/
theorem c3_amended :
    ∀ (learn : List String → List Nat → String → Nat) (mf : Nat) (op : String)
      (Xtr ytr Xte yte X : List String) (res : List (Option PyVal)),
      ((ScikitLearnTFIDFStrategy.train learn (ScikitLearnTFIDFStrategy.init mf op)
          Xtr ytr Xte yte).2.predict X).1 = .ok res →
      ∀ ov ∈ res, ∀ w, ov = some w → ∃ i : Nat, w = PyVal.int i := by
  intro learn mf op Xtr ytr Xte yte X res hres ov hov w hw
  subst hw
  rcases htr : labelTransform (labelFitTransform ytr).1 yte with e | yteEnc
  · -- the label transform failed: the post-state is untrained, predict errors
    simp [ScikitLearnTFIDFStrategy.train, htr, ScikitLearnTFIDFStrategy.predict,
      ScikitLearnTFIDFStrategy.init] at hres
  · -- successful training: the pipeline was fitted on the encoded targets
    simp only [ScikitLearnTFIDFStrategy.train, htr,
      ScikitLearnTFIDFStrategy.predict] at hres
    rw [if_neg (by simp)] at hres
    simp only [Except.ok.injEq] at hres
    subst hres
    rcases List.mem_map.1 hov with ⟨x, _, hx⟩
    have hmem : some w ∈ (pipelineFit learn Xtr (labelFitTransform ytr).2).classes.map some := by
      have hx' : (pipelineFit learn Xtr (labelFitTransform ytr).2).predictOne x = some w := hx
      unfold FittedPipeline.predictOne at hx'
      exact List.mem_map_of_mem some (List.getElem?_mem hx')
    rcases List.mem_map.1 hmem with ⟨v, hv, hveq⟩
    have hw' : v = w := by simpa using hveq
    subst hw'
    rcases List.mem_map.1 (by simpa [pipelineFit] using hv) with ⟨i, _, hieq⟩
    exact ⟨i, hieq.symm⟩

/-- C3 witness: the amended theorem applied to the demo training run, whose
prediction on "good service" is the integer index 0. -/
theorem c3_amended_witness :
    (skDemoTrained.predict ["good service"]).1 = .ok [some (PyVal.int 0)] ∧
    some (PyVal.int 0) ∈ [some (PyVal.int 0)] ∧
    (∃ i : Nat, PyVal.int 0 = PyVal.int i) :=
  ⟨rfl, by decide,
    c3_amended demoLearn 10000 "models/demo" demoXtr demoYtr demoXte demoYte
      ["good service"] [some (PyVal.int 0)] rfl (some (PyVal.int 0)) (by decide)
      (PyVal.int 0) rfl⟩

/-- C6: For every strategy, `save_model` raises the "Cannot save untrained
model" error if and only if the trained flag is unset; on a trained instance
(whose fitted model/pipeline and encoder classes are present, as `train` and
`load_model` guarantee) it persists exactly three artifacts under the
configured `output_path` — the model parameters, the vocabulary as a
token→index mapping in vocab.json, and the label map as a
stringified-index→label mapping in scaler.json — and then triggers the export
operation, whose own effects follow the three writes. -/
theorem c6_save_contract :
    (∀ self : PyTorchLSTMStrategy,
      ((self.save_model.1 = .error (PyErr.runtimeError "Cannot save untrained model")) ↔
        self.is_trained = false) ∧
      (∀ (m : TorchModel) (cls : List String),
        self.is_trained = true → self.model = some m → self.classes_ = some cls →
        self.save_model.1 = .ok () ∧
        self.save_model.2.1 = [Eff.mkdir "models",
          Eff.write (ptSaveModelPath self.output_path) Artifact.stateDict,
          Eff.write (saveVocabPath self.output_path) (Artifact.jsonVocab self.word_index),
          Eff.write (saveScalerPath self.output_path)
            (Artifact.jsonScaler (scalerEntries cls)),
          Eff.write (saveOnnxPath self.output_path) (Artifact.onnxGraph ptOnnxCfg)])) ∧
    (∀ self : TensorFlowLSTMStrategy,
      ((self.save_model.1 = .error (PyErr.runtimeError "Cannot save untrained model")) ↔
        self.is_trained = false) ∧
      (∀ (m : TFModel) (cls : List String),
        self.is_trained = true → self.model = some m → self.classes_ = some cls →
        self.save_model.1 = .ok () ∧
        self.save_model.2.1 = [Eff.mkdir "models",
          Eff.write (tfSaveModelPath self.output_path) (Artifact.kerasModel m),
          Eff.write (saveVocabPath self.output_path) (Artifact.jsonVocab self.word_index),
          Eff.write (saveScalerPath self.output_path)
            (Artifact.jsonScaler (scalerEntries cls)),
          Eff.mkdir self.output_path,
          Eff.write (saveOnnxPath self.output_path)
            (Artifact.onnxGraph { inputNames := ["input"], outputNames := [m.outputName],
                                  batchDynamic := true, opset := 17 })])) ∧
    (∀ self : ScikitLearnTFIDFStrategy,
      ((self.save_model.1 = .error (PyErr.runtimeError "Cannot save untrained model")) ↔
        self.is_trained = false) ∧
      (∀ (p : FittedPipeline) (cls : List String),
        self.is_trained = true → self.pipeline = some p → self.classes_ = some cls →
        self.save_model.1 = .ok () ∧
        self.save_model.2.1 = [
          Eff.write (skSaveModelPath self.output_path) (Artifact.pickledPipeline (some p)),
          Eff.write (saveVocabPath self.output_path) (Artifact.jsonVocab p.vocabulary_),
          Eff.write (saveScalerPath self.output_path)
            (Artifact.jsonScaler (scalerEntries cls)),
          Eff.mkdir self.output_path,
          Eff.write (saveOnnxPath self.output_path) (Artifact.onnxGraph skOnnxCfg)])) := by
  refine ⟨fun self => ⟨?_, fun m cls hT hm hc => ?_⟩,
          fun self => ⟨?_, fun m cls hT hm hc => ?_⟩,
          fun self => ⟨?_, fun p cls hT hp hc => ?_⟩⟩
  · cases hT : self.is_trained
    · simp [PyTorchLSTMStrategy.save_model, hT]
    · rcases hm : self.model with _ | m <;> rcases hc : self.classes_ with _ | cls <;>
        simp [PyTorchLSTMStrategy.save_model, PyTorchLSTMStrategy.export_to_onnx,
          hT, hm, hc]
  · constructor <;>
      simp [PyTorchLSTMStrategy.save_model, PyTorchLSTMStrategy.export_to_onnx,
        hT, hm, hc]
  · cases hT : self.is_trained
    · simp [TensorFlowLSTMStrategy.save_model, hT]
    · rcases hm : self.model with _ | m <;> rcases hc : self.classes_ with _ | cls <;>
        simp [TensorFlowLSTMStrategy.save_model, TensorFlowLSTMStrategy.export_to_onnx,
          hT, hm, hc]
  · constructor <;>
      simp [TensorFlowLSTMStrategy.save_model, TensorFlowLSTMStrategy.export_to_onnx,
        hT, hm, hc]
  · cases hT : self.is_trained
    · simp [ScikitLearnTFIDFStrategy.save_model, hT]
    · rcases hp : self.pipeline with _ | p <;> rcases hc : self.classes_ with _ | cls <;>
        simp [ScikitLearnTFIDFStrategy.save_model, ScikitLearnTFIDFStrategy.export_to_onnx,
          hT, hp, hc]
  · constructor <;>
      simp [ScikitLearnTFIDFStrategy.save_model, ScikitLearnTFIDFStrategy.export_to_onnx,
        hT, hp, hc]

/-- C6 witness: the save contract discharged on concrete trained instances of
the three strategies. -/
theorem c6_save_contract_witness :
    (ptDemoState.is_trained = true ∧ ptDemoState.save_model.1 = .ok () ∧
      ptDemoState.save_model.2.1 = [Eff.mkdir "models",
        Eff.write (ptSaveModelPath "models/demo") Artifact.stateDict,
        Eff.write (saveVocabPath "models/demo") (Artifact.jsonVocab [("good", 1)]),
        Eff.write (saveScalerPath "models/demo")
          (Artifact.jsonScaler (scalerEntries ["neg", "pos"])),
        Eff.write (saveOnnxPath "models/demo") (Artifact.onnxGraph ptOnnxCfg)]) ∧
    (tfDemoState.is_trained = true ∧ tfDemoState.save_model.1 = .ok ()) ∧
    (skDemoState.is_trained = true ∧ skDemoState.save_model.1 = .ok ()) := by
  refine ⟨⟨rfl, ?_⟩, ⟨rfl, ?_⟩, ⟨rfl, ?_⟩⟩
  · exact ((c6_save_contract.1 ptDemoState).2
      { num_classes := 2, run := fun _ => [0, 0] } ["neg", "pos"] rfl rfl rfl).imp
      id (fun h => h)
  · exact ((c6_save_contract.2.1 tfDemoState).2
      { inputName := "input", outputName := "output", run := fun _ => [0, 0] }
      ["neg", "pos"] rfl rfl rfl).1
  · exact ((c6_save_contract.2.2 skDemoState).2
      { classes := [PyVal.int 0, PyVal.int 1], vocabulary_ := [("good", 0)],
        decision := fun _ => 0 } ["neg", "pos"] rfl rfl rfl).1

/-- C8 counterexample: the claim says every strategy's export declares an
output tensor named "output", but the scikit-learn export's call site declares
no output names at all (only `initial_types` for the input), so the produced
interface's declared output-name list is empty rather than ["output"]. -/
theorem c8_counterexample :
    skDemoState.export_to_onnx.2.1 =
      [Eff.mkdir "models/demo",
       Eff.write (saveOnnxPath "models/demo") (Artifact.onnxGraph skOnnxCfg)] ∧
    skOnnxCfg.outputNames = [] ∧
    (["output"] : List String) ≠ ([] : List String) :=
  ⟨rfl, rfl, by decide⟩

/-- C8 (amended): for every trained strategy, the export operation uses opset
version 17 and a dynamic batch dimension, with the declared input tensor named
"input" or "input_ids"; the PyTorch export declares the output tensor name
"output", and the TensorFlow export's graph carries the output layer name
"output" of the model built by `train`; the scikit-learn export, however,
declares no output tensor name (the converter default applies), so the
output-naming contract does not hold identically across all three
strategies. -/
theorem c8_amended :
    ptOnnxCfg = { inputNames := ["input_ids"], outputNames := ["output"],
                  batchDynamic := true, opset := 17 } ∧
    skOnnxCfg = { inputNames := ["input"], outputNames := [],
                  batchDynamic := true, opset := 17 } ∧
    (∀ self : PyTorchLSTMStrategy,
      self.is_trained = true → self.model.isSome = true →
      self.export_to_onnx.2.1 =
        [Eff.write (saveOnnxPath self.output_path) (Artifact.onnxGraph ptOnnxCfg)]) ∧
    (∀ (self0 : TensorFlowLSTMStrategy) (Xtr ytr Xte yte : List String),
      ((self0.train Xtr ytr Xte yte).1).toOption.isSome = true →
      ((self0.train Xtr ytr Xte yte).2).export_to_onnx.2.1 =
        [Eff.mkdir ((self0.train Xtr ytr Xte yte).2).output_path,
         Eff.write (saveOnnxPath ((self0.train Xtr ytr Xte yte).2).output_path)
           (Artifact.onnxGraph { inputNames := ["input"], outputNames := ["output"],
                                 batchDynamic := true, opset := 17 })]) ∧
    (∀ self : ScikitLearnTFIDFStrategy,
      self.is_trained = true → self.pipeline.isSome = true →
      self.export_to_onnx.2.1 =
        [Eff.mkdir self.output_path,
         Eff.write (saveOnnxPath self.output_path) (Artifact.onnxGraph skOnnxCfg)]) := by
  refine ⟨rfl, rfl, fun self hT hm => ?_, fun self0 Xtr ytr Xte yte h => ?_,
    fun self hT hp => ?_⟩
  · rcases hmm : self.model with _ | m
    · rw [hmm] at hm; simp at hm
    · simp [PyTorchLSTMStrategy.export_to_onnx, hT, hmm]
  · rcases htr : labelTransform (labelFitTransform ytr).1 yte with e | yteEnc
    · simp [TensorFlowLSTMStrategy.train, htr, Except.toOption] at h
    · simp [TensorFlowLSTMStrategy.train, htr, TensorFlowLSTMStrategy.export_to_onnx,
        TensorFlowLSTMStrategy.build_model]
  · rcases hpp : self.pipeline with _ | p
    · rw [hpp] at hp; simp at hp
    · simp [ScikitLearnTFIDFStrategy.export_to_onnx, hT, hpp]

/-- C8 witness: the amended export contract discharged on concrete trained
instances (the TensorFlow instance trained on the demo scenario). -/
theorem c8_amended_witness :
    (ptDemoState.is_trained = true ∧ ptDemoState.model.isSome = true ∧
      ptDemoState.export_to_onnx.2.1 =
        [Eff.write (saveOnnxPath "models/demo") (Artifact.onnxGraph ptOnnxCfg)]) ∧
    (((TensorFlowLSTMStrategy.init 10000 30 "models/demo").train
        demoXtr demoYtr demoXte demoYte).1.toOption.isSome = true ∧
      tfDemoTrained.export_to_onnx.2.1 =
        [Eff.mkdir "models/demo",
         Eff.write (saveOnnxPath "models/demo")
           (Artifact.onnxGraph { inputNames := ["input"], outputNames := ["output"],
                                 batchDynamic := true, opset := 17 })]) ∧
    (skDemoState.is_trained = true ∧ skDemoState.pipeline.isSome = true ∧
      skDemoState.export_to_onnx.2.1 =
        [Eff.mkdir "models/demo",
         Eff.write (saveOnnxPath "models/demo") (Artifact.onnxGraph skOnnxCfg)]) :=
  ⟨⟨rfl, rfl, c8_amended.2.2.1 ptDemoState rfl rfl⟩,
   ⟨rfl, c8_amended.2.2.2.1 (TensorFlowLSTMStrategy.init 10000 30 "models/demo")
      demoXtr demoYtr demoXte demoYte rfl⟩,
   ⟨rfl, rfl, c8_amended.2.2.2.2 skDemoState rfl rfl⟩⟩

/-- C10: the trained flag is monotone on every strategy instance: it is unset
at construction, every operation's post-state flag is at least its pre-state
flag (once set to true, no operation — train, predict, save_model, load_model
or export — ever resets it to false), and the only assignments performed after
construction write true (at the end of `train` and of `load_model`). -/
theorem c10_trained_flag_monotone :
    (∀ (vs ed hd ml : Nat) (op : String),
      (PyTorchLSTMStrategy.init vs ed hd ml op).is_trained = false) ∧
    (∀ (vs ml : Nat) (op : String),
      (TensorFlowLSTMStrategy.init vs ml op).is_trained = false) ∧
    (∀ (mf : Nat) (op : String),
      (ScikitLearnTFIDFStrategy.init mf op).is_trained = false) ∧
    (∀ (self : PyTorchLSTMStrategy) (Xtr ytr Xte yte : List String),
      self.is_trained ≤ (self.train Xtr ytr Xte yte).2.is_trained) ∧
    (∀ (self : PyTorchLSTMStrategy) (X : List String),
      self.is_trained ≤ (self.predict X).2.is_trained) ∧
    (∀ self : PyTorchLSTMStrategy, self.is_trained ≤ self.save_model.2.2.is_trained) ∧
    (∀ (self : PyTorchLSTMStrategy) (pfx : String) (fs : FS),
      self.is_trained ≤ (self.load_model pfx fs).2.is_trained) ∧
    (∀ self : PyTorchLSTMStrategy, self.is_trained ≤ self.export_to_onnx.2.2.is_trained) ∧
    (∀ (self : TensorFlowLSTMStrategy) (Xtr ytr Xte yte : List String),
      self.is_trained ≤ (self.train Xtr ytr Xte yte).2.is_trained) ∧
    (∀ (self : TensorFlowLSTMStrategy) (Xseq : List (List Nat)),
      self.is_trained ≤ (self.predict Xseq).2.is_trained) ∧
    (∀ self : TensorFlowLSTMStrategy, self.is_trained ≤ self.save_model.2.2.is_trained) ∧
    (∀ (self : TensorFlowLSTMStrategy) (pfx : String) (fs : FS),
      self.is_trained ≤ (self.load_model pfx fs).2.is_trained) ∧
    (∀ self : TensorFlowLSTMStrategy, self.is_trained ≤ self.export_to_onnx.2.2.is_trained) ∧
    (∀ (learn : List String → List Nat → String → Nat)
      (self : ScikitLearnTFIDFStrategy) (Xtr ytr Xte yte : List String),
      self.is_trained ≤ (ScikitLearnTFIDFStrategy.train learn self Xtr ytr Xte yte).2.is_trained) ∧
    (∀ (self : ScikitLearnTFIDFStrategy) (X : List String),
      self.is_trained ≤ (self.predict X).2.is_trained) ∧
    (∀ self : ScikitLearnTFIDFStrategy, self.is_trained ≤ self.save_model.2.2.is_trained) ∧
    (∀ (self : ScikitLearnTFIDFStrategy) (pfx : String) (fs : FS),
      self.is_trained ≤ (self.load_model pfx fs).2.is_trained) ∧
    (∀ self : ScikitLearnTFIDFStrategy,
      self.is_trained ≤ self.export_to_onnx.2.2.is_trained) := by
  refine ⟨fun _ _ _ _ _ => rfl, fun _ _ _ => rfl, fun _ _ => rfl,
    ?_, ?_, ?_, ?_, ?_, ?_, ?_, ?_, ?_, ?_, ?_, ?_, ?_, ?_, ?_⟩
  · intro self Xtr ytr Xte yte
    refine bool_le_of_imp fun h => ?_
    rcases htr : labelTransform (labelFitTransform ytr).1 yte with e | yteEnc <;>
      simp [PyTorchLSTMStrategy.train, PyTorchLSTMStrategy.predict, htr, h]
  · intro self X
    refine bool_le_of_imp fun h => ?_
    rcases hm : self.model with _ | m <;> simp [PyTorchLSTMStrategy.predict, hm, h]
  · intro self
    refine bool_le_of_imp fun h => ?_
    rcases hm : self.model with _ | m <;> rcases hc : self.classes_ with _ | cls <;>
      simp [PyTorchLSTMStrategy.save_model, PyTorchLSTMStrategy.export_to_onnx, h, hm, hc]
  · intro self pfx fs
    refine bool_le_of_imp fun h => ?_
    rcases hc : self.classes_ with _ | cls
    · simp [PyTorchLSTMStrategy.load_model, hc, h]
    · simp only [PyTorchLSTMStrategy.load_model, hc]
      repeat' split
      all_goals simp [h]
  · intro self
    refine bool_le_of_imp fun h => ?_
    rcases hm : self.model with _ | m <;>
      simp [PyTorchLSTMStrategy.export_to_onnx, h, hm]
  · intro self Xtr ytr Xte yte
    refine bool_le_of_imp fun h => ?_
    rcases htr : labelTransform (labelFitTransform ytr).1 yte with e | yteEnc <;>
      simp [TensorFlowLSTMStrategy.train, htr, h]
  · intro self Xseq
    refine bool_le_of_imp fun h => ?_
    rcases hm : self.model with _ | m <;> simp [TensorFlowLSTMStrategy.predict, hm, h]
  · intro self
    refine bool_le_of_imp fun h => ?_
    rcases hm : self.model with _ | m <;> rcases hc : self.classes_ with _ | cls <;>
      simp [TensorFlowLSTMStrategy.save_model, TensorFlowLSTMStrategy.export_to_onnx, h, hm, hc]
  · intro self pfx fs
    refine bool_le_of_imp fun h => ?_
    simp only [TensorFlowLSTMStrategy.load_model]
    repeat' split
    all_goals simp [h]
  · intro self
    refine bool_le_of_imp fun h => ?_
    rcases hm : self.model with _ | m <;>
      simp [TensorFlowLSTMStrategy.export_to_onnx, h, hm]
  · intro learn self Xtr ytr Xte yte
    refine bool_le_of_imp fun h => ?_
    rcases htr : labelTransform (labelFitTransform ytr).1 yte with e | yteEnc <;>
      simp [ScikitLearnTFIDFStrategy.train, htr, h]
  · intro self X
    refine bool_le_of_imp fun h => ?_
    rcases hp : self.pipeline with _ | p <;>
      simp [ScikitLearnTFIDFStrategy.predict, hp, h]
  · intro self
    refine bool_le_of_imp fun h => ?_
    rcases hp : self.pipeline with _ | p <;> rcases hc : self.classes_ with _ | cls <;>
      simp [ScikitLearnTFIDFStrategy.save_model, ScikitLearnTFIDFStrategy.export_to_onnx,
        h, hp, hc]
  · intro self pfx fs
    refine bool_le_of_imp fun h => ?_
    simp only [ScikitLearnTFIDFStrategy.load_model]
    repeat' split
    all_goals simp [h]
  · intro self
    refine bool_le_of_imp fun h => ?_
    rcases hp : self.pipeline with _ | p <;>
      simp [ScikitLearnTFIDFStrategy.export_to_onnx, h, hp]

end WhiteLightning
